import Mathlib

/-!
Verification of the EMI prediction preprocessing pipeline
(`utils/preprocessing.py`, function `preprocess_input`).

The pipeline takes a raw user-input dictionary (one row), derives numeric
features, one-hot encodes a fixed list of categorical fields with
`pd.get_dummies(..., drop_first=True)`, loads the training-time column
schema from a pickle artifact and reindexes the row against it with
`fill_value=0`.

Modelling choices:
* a single-row DataFrame is an association list of column name / cell value
  pairs (`Row`), a cell being either a number (modelled by `ℚ`) or a string;
* the raw input dictionary is the structure `RawProfile`, with the fields
  and insertion order used by the caller (`app.py`);
* `pd.read_pickle` on the schema artifact is modelled by an
  `Option (List String)` argument: `none` when the artifact cannot be
  loaded (in Python, `read_pickle` raises), `some schema` when it
  deserializes; the result of `preprocess_input` is accordingly an
  `Except String Row`.
-/

/-- A cell of the single-row DataFrame: numeric or categorical (string). -/
inductive Val where
  | num (q : ℚ)
  | str (s : String)
deriving DecidableEq, Repr

/-- A single-row DataFrame: ordered association list column name ↦ cell. -/
abbrev Row := List (String × Val)

/-- The raw user-input dictionary (`input_data` in `app.py`): seventeen
numeric fields and eight categorical fields. -/
structure RawProfile where
  age : ℚ
  gender : String
  marital_status : String
  education : String
  monthly_salary : ℚ
  employment_type : String
  years_of_employment : ℚ
  company_type : String
  house_type : String
  monthly_rent : ℚ
  family_size : ℚ
  dependents : ℚ
  school_fees : ℚ
  college_fees : ℚ
  travel_expenses : ℚ
  groceries_utilities : ℚ
  other_monthly_expenses : ℚ
  existing_loans : String
  current_emi_amount : ℚ
  credit_score : ℚ
  bank_balance : ℚ
  emergency_fund : ℚ
  emi_scenario : String
  requested_amount : ℚ
  requested_tenure : ℚ

/-- `pd.DataFrame([data])`: the one-row frame, columns in the insertion
order of the input dictionary built in `app.py`. -/
def toRow (p : RawProfile) : Row :=
  [ ("age", .num p.age)
  , ("gender", .str p.gender)
  , ("marital_status", .str p.marital_status)
  , ("education", .str p.education)
  , ("monthly_salary", .num p.monthly_salary)
  , ("employment_type", .str p.employment_type)
  , ("years_of_employment", .num p.years_of_employment)
  , ("company_type", .str p.company_type)
  , ("house_type", .str p.house_type)
  , ("monthly_rent", .num p.monthly_rent)
  , ("family_size", .num p.family_size)
  , ("dependents", .num p.dependents)
  , ("school_fees", .num p.school_fees)
  , ("college_fees", .num p.college_fees)
  , ("travel_expenses", .num p.travel_expenses)
  , ("groceries_utilities", .num p.groceries_utilities)
  , ("other_monthly_expenses", .num p.other_monthly_expenses)
  , ("existing_loans", .str p.existing_loans)
  , ("current_emi_amount", .num p.current_emi_amount)
  , ("credit_score", .num p.credit_score)
  , ("bank_balance", .num p.bank_balance)
  , ("emergency_fund", .num p.emergency_fund)
  , ("emi_scenario", .str p.emi_scenario)
  , ("requested_amount", .num p.requested_amount)
  , ("requested_tenure", .num p.requested_tenure)
  ]

/-- pandas `Series.clip(lower=lo)`. -/
def clipLower (lo x : ℚ) : ℚ := if x < lo then lo else x

/-- STEP 1: `df["total_expenses"] = school_fees + college_fees +
travel_expenses + groceries_utilities + other_monthly_expenses`. -/
def total_expenses (p : RawProfile) : ℚ :=
  p.school_fees + p.college_fees + p.travel_expenses
    + p.groceries_utilities + p.other_monthly_expenses

/-- `df["disposable_income"] = (monthly_salary - total_expenses -
current_emi_amount).clip(lower=0)`. -/
def disposable_income (p : RawProfile) : ℚ :=
  clipLower 0 (p.monthly_salary - total_expenses p - p.current_emi_amount)

/-- `df["expense_ratio"] = total_expenses / (monthly_salary + 1)`. -/
def expense_ratio (p : RawProfile) : ℚ :=
  total_expenses p / (p.monthly_salary + 1)

/-- `df["dti_ratio"] = current_emi_amount / (monthly_salary + 1)`. -/
def dti_ratio (p : RawProfile) : ℚ :=
  p.current_emi_amount / (p.monthly_salary + 1)

/-- `df["affordability_index"] = (bank_balance + emergency_fund) /
(requested_amount + 1)`. -/
def affordability_index (p : RawProfile) : ℚ :=
  (p.bank_balance + p.emergency_fund) / (p.requested_amount + 1)

/-- STEP 2: `df["credit_risk_score"] = (850 - credit_score) / 550`. -/
def credit_risk_score (p : RawProfile) : ℚ :=
  (850 - p.credit_score) / 550

/-- `np.where(years_of_employment >= 5, 1, np.where(years_of_employment >= 2,
0.5, 0.2))`. -/
def employment_stability_score (p : RawProfile) : ℚ :=
  if p.years_of_employment ≥ 5 then 1
  else if p.years_of_employment ≥ 2 then 0.5 else 0.2

/-- `df["financial_risk_index"] = expense_ratio * 0.4 + dti_ratio * 0.4 +
credit_risk_score * 0.2`. -/
def financial_risk_index (p : RawProfile) : ℚ :=
  expense_ratio p * 0.4 + dti_ratio p * 0.4 + credit_risk_score p * 0.2

/-- STEP 3: `df["income_credit_interaction"] = monthly_salary *
credit_risk_score`. -/
def income_credit_interaction (p : RawProfile) : ℚ :=
  p.monthly_salary * credit_risk_score p

/-- `df["emi_income_interaction"] = current_emi_amount /
(monthly_salary + 1)`. -/
def emi_income_interaction (p : RawProfile) : ℚ :=
  p.current_emi_amount / (p.monthly_salary + 1)

/-- `df["savings_buffer_ratio"] = (bank_balance + emergency_fund) /
(monthly_salary + 1)`. -/
def savings_buffer_ratio (p : RawProfile) : ℚ :=
  (p.bank_balance + p.emergency_fund) / (p.monthly_salary + 1)

/-- The frame after STEPS 1–3: each `df["name"] = ...` assignment appends a
new column at the end of the frame, in program order. -/
def engineeredRow (p : RawProfile) : Row :=
  toRow p ++
  [ ("total_expenses", .num (total_expenses p))
  , ("disposable_income", .num (disposable_income p))
  , ("expense_ratio", .num (expense_ratio p))
  , ("dti_ratio", .num (dti_ratio p))
  , ("affordability_index", .num (affordability_index p))
  , ("credit_risk_score", .num (credit_risk_score p))
  , ("employment_stability_score", .num (employment_stability_score p))
  , ("financial_risk_index", .num (financial_risk_index p))
  , ("income_credit_interaction", .num (income_credit_interaction p))
  , ("emi_income_interaction", .num (emi_income_interaction p))
  , ("savings_buffer_ratio", .num (savings_buffer_ratio p))
  ]

/-- STEP 4: the `categorical_cols` list of the source. -/
def categorical_cols : List String :=
  [ "gender"
  , "marital_status"
  , "education"
  , "employment_type"
  , "company_type"
  , "house_type"
  , "existing_loans"
  , "emi_scenario"
  ]

/-- Insert a string into a (sorted) list, keeping ascending order. -/
def insertSorted (s : String) : List String → List String
  | [] => [s]
  | x :: xs => if s ≤ x then s :: x :: xs else x :: insertSorted s xs

/-- Insertion sort on strings (pandas sorts category levels ascending). -/
def sortStrings : List String → List String
  | [] => []
  | x :: xs => insertSorted x (sortStrings xs)

/-- Remove duplicates keeping the first occurrence of each string. -/
def dedupFirst : List String → List String
  | [] => []
  | x :: xs => x :: (dedupFirst xs).filter (fun y => !(y == x))

/-- The category levels pandas infers for a column: the sorted distinct
observed values. -/
def levelsOf (observed : List String) : List String :=
  sortStrings (dedupFirst observed)

/-- The reference level dropped by `drop_first=True`: the first inferred
level. -/
def droppedReference (observed : List String) : Option String :=
  (levelsOf observed).head?

/-- `pd.get_dummies` output for one categorical column of a single-row
frame whose cells are `observed` (here always one cell): one indicator
column `col_level` per inferred level except the dropped first one, holding
1 where the cell equals the level and 0 elsewhere. -/
def dummyColumnsFor (col : String) (observed : List String) (cell : String) :
    Row :=
  ((levelsOf observed).drop 1).map
    (fun lvl => (col ++ "_" ++ lvl, Val.num (if cell = lvl then 1 else 0)))

/-- `pd.get_dummies(df, columns=cats, drop_first=True)` on a single-row
frame: non-categorical columns keep their order, the categorical columns
are removed, and the indicator columns are appended grouped per
categorical column. -/
def getDummiesSingleRow (row : Row) (cats : List String) : Row :=
  row.filter (fun e => !(decide (e.1 ∈ cats))) ++
  cats.flatMap (fun c =>
    match List.lookup c row with
    | some (Val.str v) => dummyColumnsFor c [v] v
    | _ => [])

/-- The frame after STEP 4 (the `EncodedRow` of the spec). -/
def encodedRow (p : RawProfile) : Row :=
  getDummiesSingleRow (engineeredRow p) categorical_cols

/-- STEP 5: `df.reindex(columns=expected_columns, fill_value=0)`. -/
def reindexRow (row : Row) (schema : List String) : Row :=
  schema.map (fun c => (c, (List.lookup c row).getD (Val.num 0)))

/-- The `FeatureVector`: the encoded row aligned against the schema. -/
def featureVector (schema : List String) (p : RawProfile) : Row :=
  reindexRow (encodedRow p) schema

/-- The whole of `preprocess_input`.  The first argument models the
`pd.read_pickle(FEATURE_COL_PATH)` artifact load: `none` when the artifact
cannot be loaded, in which case the Python code raises before producing any
frame (spec taxonomy: `ArtifactMissing`). -/
def preprocessInput (schemaArtifact : Option (List String))
    (p : RawProfile) : Except String Row :=
  match schemaArtifact with
  | none => .error "ArtifactMissing"
  | some schema => .ok (featureVector schema p)

/-! ### Spec-side formulas (§4.1 of the spec), for the refinement claim C4 -/

/-- Spec §4.1: `total_expenses = school_fees + college_fees + travel_expenses
+ groceries_utilities + other_monthly_expenses`. -/
def spec_total_expenses (p : RawProfile) : ℚ :=
  p.school_fees + p.college_fees + p.travel_expenses
    + p.groceries_utilities + p.other_monthly_expenses

/-- Spec §4.1: `disposable_income = max(0, monthly_salary - total_expenses -
current_emi_amount)`. -/
def spec_disposable_income (p : RawProfile) : ℚ :=
  max 0 (p.monthly_salary - spec_total_expenses p - p.current_emi_amount)

/-- Spec §4.1: `expense_ratio = total_expenses / (monthly_salary + 1)`. -/
def spec_expense_ratio (p : RawProfile) : ℚ :=
  spec_total_expenses p / (p.monthly_salary + 1)

/-- Spec §4.1: `dti_ratio = current_emi_amount / (monthly_salary + 1)`. -/
def spec_dti_ratio (p : RawProfile) : ℚ :=
  p.current_emi_amount / (p.monthly_salary + 1)

/-- Spec §4.1: `affordability_index = (bank_balance + emergency_fund) /
(requested_amount + 1)`. -/
def spec_affordability_index (p : RawProfile) : ℚ :=
  (p.bank_balance + p.emergency_fund) / (p.requested_amount + 1)

/-- Spec §4.1: `credit_risk_score = (850 - credit_score) / 550`. -/
def spec_credit_risk_score (p : RawProfile) : ℚ :=
  (850 - p.credit_score) / 550

/-- Spec §4.1: `employment_stability_score = 1.0 if years_of_employment >= 5,
0.5 if 2 <= years_of_employment < 5, 0.2 otherwise`. -/
def spec_employment_stability_score (p : RawProfile) : ℚ :=
  if p.years_of_employment ≥ 5 then 1
  else if 2 ≤ p.years_of_employment ∧ p.years_of_employment < 5 then 0.5
  else 0.2

/-- Spec §4.1: `financial_risk_index = 0.4*expense_ratio + 0.4*dti_ratio +
0.2*credit_risk_score`. -/
def spec_financial_risk_index (p : RawProfile) : ℚ :=
  0.4 * spec_expense_ratio p + 0.4 * spec_dti_ratio p
    + 0.2 * spec_credit_risk_score p

/-- Spec §4.1: `income_credit_interaction = monthly_salary *
credit_risk_score`. -/
def spec_income_credit_interaction (p : RawProfile) : ℚ :=
  p.monthly_salary * spec_credit_risk_score p

/-- Spec §4.1: `emi_income_interaction = current_emi_amount /
(monthly_salary + 1)`. -/
def spec_emi_income_interaction (p : RawProfile) : ℚ :=
  p.current_emi_amount / (p.monthly_salary + 1)

/-- Spec §4.1: `savings_buffer_ratio = (bank_balance + emergency_fund) /
(monthly_salary + 1)`. -/
def spec_savings_buffer_ratio (p : RawProfile) : ℚ :=
  (p.bank_balance + p.emergency_fund) / (p.monthly_salary + 1)

/-- The §8 concrete scenario of the spec, the unconstrained fields filled
with the fixed values `app.py` supplies. -/
def scenarioProfile : RawProfile :=
  { age := 30
  , gender := "Male"
  , marital_status := "Single"
  , education := "Graduate"
  , monthly_salary := 50000
  , employment_type := "Salaried"
  , years_of_employment := 3
  , company_type := "Private"
  , house_type := "Rented"
  , monthly_rent := 10000
  , family_size := 3
  , dependents := 1
  , school_fees := 0
  , college_fees := 0
  , travel_expenses := 2000
  , groceries_utilities := 5000
  , other_monthly_expenses := 3000
  , existing_loans := "No"
  , current_emi_amount := 0
  , credit_score := 750
  , bank_balance := 50000
  , emergency_fund := 30000
  , emi_scenario := "Personal Loan EMI"
  , requested_amount := 300000
  , requested_tenure := 36
  }

/-! ### Helper lemmas -/

theorem clipLower_eq_max (x : ℚ) : clipLower 0 x = max 0 x := by
  unfold clipLower
  by_cases h : x < 0
  · simp [h, max_eq_left h.le]
  · simp [h, max_eq_right (not_lt.mp h)]

theorem lookup_reindex (row : Row) (schema : List String) (c : String)
    (hc : c ∈ schema) :
    List.lookup c (reindexRow row schema) =
      some ((List.lookup c row).getD (Val.num 0)) := by
  simpa [reindexRow] using
    List.lookup_graph (fun d => (List.lookup d row).getD (Val.num 0)) hc

theorem map_fst_reindex (row : Row) (schema : List String) :
    (reindexRow row schema).map Prod.fst = schema := by
  induction schema with
  | nil => rfl
  | cons s rest ih => simpa [reindexRow] using ih

theorem mem_fst_reindex (row : Row) (schema : List String) (e : String × Val)
    (he : e ∈ reindexRow row schema) : e.1 ∈ schema := by
  have h := List.mem_map_of_mem Prod.fst he
  rwa [map_fst_reindex] at h

theorem lookup_filter_cats (c : String) (cats : List String) (l : Row)
    (hc : c ∈ cats) :
    List.lookup c (l.filter fun e => !(decide (e.1 ∈ cats))) = none := by
  induction l with
  | nil => rfl
  | cons e l ih =>
    obtain ⟨k, v⟩ := e
    by_cases h : k ∈ cats
    · simpa [List.filter_cons, h] using ih
    · have hne : c ≠ k := fun hh => h (hh ▸ hc)
      have hf : List.filter (fun e => !(decide (e.1 ∈ cats))) ((k, v) :: l)
          = (k, v) :: List.filter (fun e => !(decide (e.1 ∈ cats))) l := by
        simp [List.filter_cons, h]
      rw [hf, List.lookup_cons, beq_false_of_ne hne]
      exact ih

theorem encodedRow_eq_filter (p : RawProfile) :
    encodedRow p = (engineeredRow p).filter
      (fun e => !(decide (e.1 ∈ categorical_cols))) := rfl

theorem lookup_cat_encodedRow (p : RawProfile) (c : String)
    (hc : c ∈ categorical_cols) : List.lookup c (encodedRow p) = none := by
  rw [encodedRow_eq_filter]
  exact lookup_filter_cats c categorical_cols (engineeredRow p) hc

/-- The column names of the encoded row, identical for every input. -/
def encodedColNames : List String :=
  [ "age", "monthly_salary", "years_of_employment", "monthly_rent",
    "family_size", "dependents", "school_fees", "college_fees",
    "travel_expenses", "groceries_utilities", "other_monthly_expenses",
    "current_emi_amount", "credit_score", "bank_balance", "emergency_fund",
    "requested_amount", "requested_tenure",
    "total_expenses", "disposable_income", "expense_ratio", "dti_ratio",
    "affordability_index", "credit_risk_score", "employment_stability_score",
    "financial_risk_index", "income_credit_interaction",
    "emi_income_interaction", "savings_buffer_ratio" ]

theorem encodedRow_map_fst (p : RawProfile) :
    (encodedRow p).map Prod.fst = encodedColNames := rfl

/-- Boolean test: the first character list starts the second one. -/
def isPreOf : List Char → List Char → Bool
  | [], _ => true
  | _ :: _, [] => false
  | a :: as, b :: bs => a == b && isPreOf as bs

theorem isPreOf_append (a rest : List Char) : isPreOf a (a ++ rest) = true := by
  induction a with
  | nil => rfl
  | cons x xs ih => simp [isPreOf, ih]

theorem noIndicatorNames :
    ∀ c ∈ categorical_cols, ∀ n ∈ encodedColNames,
      isPreOf (c ++ "_").data n.data = false := by decide

theorem lookup_eq_none_of_not_fst (c : String) (l : Row)
    (h : c ∉ l.map Prod.fst) : List.lookup c l = none := by
  induction l with
  | nil => rfl
  | cons e l ih =>
    obtain ⟨k, v⟩ := e
    simp only [List.map_cons, List.mem_cons, not_or] at h
    rw [List.lookup_cons, beq_false_of_ne h.1]
    exact ih h.2

theorem indicator_not_in_encoded (p : RawProfile) (c : String)
    (hc : c ∈ categorical_cols) (lvl : String) :
    List.lookup (c ++ "_" ++ lvl) (encodedRow p) = none := by
  apply lookup_eq_none_of_not_fst
  rw [encodedRow_map_fst]
  intro hmem
  have h1 : isPreOf (c ++ "_").data (c ++ "_" ++ lvl).data = true := by
    rw [String.data_append]
    exact isPreOf_append _ _
  have h2 := noIndicatorNames c hc (c ++ "_" ++ lvl) hmem
  rw [h1] at h2
  cases h2

/-! ### Claim theorems -/

/-- Claim C1: for every input profile (given the schema artifact loads), the
returned frame has exactly the schema's columns in the schema's order; each
schema column's value is copied from the encoded row when present and is 0
otherwise, and every encoded-row column not named in the schema is
discarded. -/
theorem preprocess_schema_alignment (schema : List String) (p : RawProfile) :
    preprocessInput (some schema) p = Except.ok (featureVector schema p) ∧
    (featureVector schema p).map Prod.fst = schema ∧
    (∀ c ∈ schema, List.lookup c (featureVector schema p) =
      some ((List.lookup c (encodedRow p)).getD (Val.num 0))) ∧
    (∀ e ∈ featureVector schema p, e.1 ∈ schema) := by
  refine ⟨rfl, map_fst_reindex _ _, fun c hc => ?_, fun e he => ?_⟩
  · exact lookup_reindex _ _ _ hc
  · exact mem_fst_reindex _ _ _ he

theorem preprocess_schema_alignment_witness :
    List.lookup "monthly_salary"
      (featureVector ["monthly_salary", "gender_Male"] scenarioProfile) =
      some (Val.num 50000) ∧
    (featureVector ["monthly_salary", "gender_Male"] scenarioProfile).map
      Prod.fst = ["monthly_salary", "gender_Male"] := by
  have h := preprocess_schema_alignment ["monthly_salary", "gender_Male"]
    scenarioProfile
  refine ⟨?_, h.2.1⟩
  rw [h.2.2.1 "monthly_salary" (by simp)]
  rfl

/-- Claim C2: for a single-row input, the encoder replaces each categorical
field with one indicator column per observed level except the dropped first
one; for the single observed level this means the field's column is removed
and no indicator column is produced, the sole level being exactly the
dropped reference level (so zero columns arise only in that case, and the
alternative case of an indicator set to 1 cannot arise). -/
theorem encoder_drops_sole_level (p : RawProfile) (c : String)
    (hc : c ∈ categorical_cols) (v : String)
    (_hv : List.lookup c (engineeredRow p) = some (Val.str v)) :
    droppedReference [v] = some v ∧
    dummyColumnsFor c [v] v = [] ∧
    (droppedReference [v] ≠ some v →
      ∃ e ∈ dummyColumnsFor c [v] v, e.2 = Val.num 1) ∧
    List.lookup c (encodedRow p) = none := by
  refine ⟨rfl, rfl, fun h => absurd rfl h, lookup_cat_encodedRow p c hc⟩

theorem encoder_drops_sole_level_witness :
    droppedReference ["Male"] = some "Male" ∧
    dummyColumnsFor "gender" ["Male"] "Male" = [] ∧
    List.lookup "gender" (encodedRow scenarioProfile) = none := by
  have h := encoder_drops_sole_level scenarioProfile "gender" (by decide)
    "Male" rfl
  exact ⟨h.1, h.2.1, h.2.2.2⟩

/-- Claim C3: every one-hot indicator column of the returned feature vector
equals 0, whatever categorical values were supplied: no indicator column
survives the single-row encoding, so every schema column of the form
`field_level` for a categorical field is zero-filled by the reindex. -/
theorem indicator_columns_all_zero (p : RawProfile) (schema : List String)
    (col : String) (hcol : col ∈ schema) (c : String)
    (hc : c ∈ categorical_cols) (lvl : String)
    (hname : col = c ++ "_" ++ lvl) :
    List.lookup col (featureVector schema p) = some (Val.num 0) := by
  unfold featureVector
  rw [lookup_reindex _ _ _ hcol, hname, indicator_not_in_encoded p c hc lvl]
  rfl

theorem indicator_columns_all_zero_witness :
    List.lookup "emi_scenario_Personal Loan EMI"
      (featureVector ["emi_scenario_Personal Loan EMI"] scenarioProfile) =
      some (Val.num 0) :=
  indicator_columns_all_zero scenarioProfile
    ["emi_scenario_Personal Loan EMI"] "emi_scenario_Personal Loan EMI"
    (by decide) "emi_scenario" (by decide) "Personal Loan EMI" rfl

/-- Claim C4: the feature-engineering step computes the derived features by
exactly the §4.1 formulas, and on the §8 concrete scenario it yields
total_expenses = 10000, disposable_income = 40000,
expense_ratio = 10000/50001, dti_ratio = 0,
credit_risk_score = (850-750)/550, affordability_index = 80000/300001. -/
theorem derived_features_formulas (p : RawProfile) :
    (total_expenses p = spec_total_expenses p ∧
     disposable_income p = spec_disposable_income p ∧
     expense_ratio p = spec_expense_ratio p ∧
     dti_ratio p = spec_dti_ratio p ∧
     affordability_index p = spec_affordability_index p ∧
     credit_risk_score p = spec_credit_risk_score p ∧
     employment_stability_score p = spec_employment_stability_score p ∧
     financial_risk_index p = spec_financial_risk_index p ∧
     income_credit_interaction p = spec_income_credit_interaction p ∧
     emi_income_interaction p = spec_emi_income_interaction p ∧
     savings_buffer_ratio p = spec_savings_buffer_ratio p) ∧
    (p.monthly_salary = 50000 → p.school_fees = 0 → p.college_fees = 0 →
     p.travel_expenses = 2000 → p.groceries_utilities = 5000 →
     p.other_monthly_expenses = 3000 → p.current_emi_amount = 0 →
     p.credit_score = 750 → p.bank_balance = 50000 →
     p.emergency_fund = 30000 → p.requested_amount = 300000 →
     total_expenses p = 10000 ∧ disposable_income p = 40000 ∧
     expense_ratio p = 10000 / 50001 ∧ dti_ratio p = 0 ∧
     credit_risk_score p = (850 - 750) / 550 ∧
     affordability_index p = 80000 / 300001) := by
  constructor
  · refine ⟨rfl, ?_, rfl, rfl, rfl, rfl, ?_, ?_, rfl, rfl, rfl⟩
    · rw [disposable_income, spec_disposable_income, clipLower_eq_max]
      rfl
    · rw [employment_stability_score, spec_employment_stability_score]
      by_cases h5 : p.years_of_employment ≥ 5
      · simp [h5]
      · by_cases h2 : p.years_of_employment ≥ 2
        · simp [h5, h2, lt_of_not_ge h5]
        · simp [h5, h2]
    · rw [financial_risk_index, spec_financial_risk_index,
        spec_expense_ratio, spec_dti_ratio, spec_credit_risk_score,
        expense_ratio, dti_ratio, credit_risk_score, spec_total_expenses,
        total_expenses]
      ring
  · intro h1 h2 h3 h4 h5 h6 h7 h8 h9 h10 h11
    refine ⟨?_, ?_, ?_, ?_, ?_, ?_⟩ <;>
      norm_num [total_expenses, disposable_income, clipLower, expense_ratio,
        dti_ratio, credit_risk_score, affordability_index,
        h1, h2, h3, h4, h5, h6, h7, h8, h9, h10, h11]

theorem derived_features_formulas_witness :
    total_expenses scenarioProfile = 10000 ∧
    disposable_income scenarioProfile = 40000 ∧
    expense_ratio scenarioProfile = 10000 / 50001 ∧
    dti_ratio scenarioProfile = 0 ∧
    credit_risk_score scenarioProfile = (850 - 750) / 550 ∧
    affordability_index scenarioProfile = 80000 / 300001 :=
  (derived_features_formulas scenarioProfile).2
    rfl rfl rfl rfl rfl rfl rfl rfl rfl rfl rfl

/-- Claim C5: the ratio computations are total: each ratio divides by the
nominal amount plus 1, which is nonzero for any non-negative input, so no
divide-by-zero arises; with zero monthly salary the expense and DTI ratios
divide by exactly 1. -/
theorem ratio_division_safety (p : RawProfile)
    (hms : 0 ≤ p.monthly_salary) (hra : 0 ≤ p.requested_amount) :
    p.monthly_salary + 1 ≠ 0 ∧ p.requested_amount + 1 ≠ 0 ∧
    (p.monthly_salary = 0 →
      expense_ratio p = total_expenses p / 1 ∧
      dti_ratio p = p.current_emi_amount / 1 ∧
      emi_income_interaction p = p.current_emi_amount / 1 ∧
      savings_buffer_ratio p = (p.bank_balance + p.emergency_fund) / 1) ∧
    (p.requested_amount = 0 →
      affordability_index p = (p.bank_balance + p.emergency_fund) / 1) := by
  refine ⟨by positivity, by positivity, fun h0 => ?_, fun h0 => ?_⟩
  · simp [expense_ratio, dti_ratio, emi_income_interaction,
      savings_buffer_ratio, h0]
  · simp [affordability_index, h0]

/-- The §8 zero-income variant of the scenario input. -/
def zeroIncomeProfile : RawProfile :=
  { scenarioProfile with monthly_salary := 0, requested_amount := 0 }

theorem ratio_division_safety_witness :
    zeroIncomeProfile.monthly_salary + 1 ≠ 0 ∧
    expense_ratio zeroIncomeProfile = total_expenses zeroIncomeProfile / 1 ∧
    dti_ratio zeroIncomeProfile = zeroIncomeProfile.current_emi_amount / 1 := by
  have h := ratio_division_safety zeroIncomeProfile
    (le_refl 0) (le_refl 0)
  exact ⟨h.1, (h.2.2.1 rfl).1, (h.2.2.1 rfl).2.1⟩

/-- Claim C6: the disposable income produced by the pipeline is
`max(0, monthly_salary - total_expenses - current_emi_amount)`, hence never
negative, and that is the value carried into the feature vector whenever
the schema asks for the `disposable_income` column. -/
theorem disposable_income_nonneg (p : RawProfile) :
    disposable_income p =
      max 0 (p.monthly_salary - total_expenses p - p.current_emi_amount) ∧
    0 ≤ disposable_income p ∧
    List.lookup "disposable_income" (encodedRow p) =
      some (Val.num (disposable_income p)) ∧
    (∀ schema, "disposable_income" ∈ schema →
      List.lookup "disposable_income" (featureVector schema p) =
        some (Val.num (disposable_income p))) := by
  have hmax : disposable_income p =
      max 0 (p.monthly_salary - total_expenses p - p.current_emi_amount) :=
    clipLower_eq_max _
  refine ⟨hmax, ?_, rfl, fun schema hs => ?_⟩
  · rw [hmax]; exact le_max_left _ _
  · unfold featureVector
    rw [lookup_reindex _ _ _ hs]
    rfl

/-- An over-committed input: expenses plus EMI exceed the salary. -/
def overCommittedProfile : RawProfile :=
  { scenarioProfile with monthly_salary := 5000, current_emi_amount := 4000 }

theorem disposable_income_nonneg_witness :
    0 ≤ disposable_income overCommittedProfile ∧
    List.lookup "disposable_income"
      (featureVector ["disposable_income"] overCommittedProfile) =
      some (Val.num (disposable_income overCommittedProfile)) := by
  have h := disposable_income_nonneg overCommittedProfile
  exact ⟨h.2.1, h.2.2.2 ["disposable_income"] (by simp)⟩

/-- Claim C7: the employment stability score is 1 when years of employment
is at least 5, 0.5 when it is at least 2 and below 5, and 0.2 when it is
below 2. -/
theorem employment_stability_cases (p : RawProfile) :
    (p.years_of_employment ≥ 5 → employment_stability_score p = 1) ∧
    (2 ≤ p.years_of_employment ∧ p.years_of_employment < 5 →
      employment_stability_score p = 0.5) ∧
    (p.years_of_employment < 2 → employment_stability_score p = 0.2) := by
  refine ⟨fun h => ?_, fun h => ?_, fun h => ?_⟩
  · simp [employment_stability_score, h]
  · simp [employment_stability_score, not_le.mpr h.2, h.1]
  · have h2 : ¬ p.years_of_employment ≥ 2 := not_le.mpr h
    have h5 : ¬ p.years_of_employment ≥ 5 :=
      not_le.mpr (lt_of_lt_of_le h (by norm_num))
    simp [employment_stability_score, h2, h5]

theorem employment_stability_cases_witness :
    employment_stability_score
      { scenarioProfile with years_of_employment := 10 } = 1 ∧
    employment_stability_score scenarioProfile = 0.5 ∧
    employment_stability_score
      { scenarioProfile with years_of_employment := 1 } = 0.2 :=
  ⟨(employment_stability_cases _).1 (show (5:ℚ) ≤ 10 by norm_num),
   (employment_stability_cases scenarioProfile).2.1
     ⟨show (2:ℚ) ≤ 3 by norm_num, show (3:ℚ) < 5 by norm_num⟩,
   (employment_stability_cases _).2.2 (show (1:ℚ) < 2 by norm_num)⟩

/-- Claim C8: for every input — in particular one whose categorical value
is not among the training-time levels, such as emi_scenario = "Crypto EMI"
— the pipeline raises no fault, and every schema column that is an
indicator of that categorical field comes out 0 (the unseen level produces
no matching indicator column, so the reindex zero-fills it). -/
theorem unseen_category_zero_fill (p : RawProfile) (schema : List String)
    (c : String) (hc : c ∈ categorical_cols) :
    preprocessInput (some schema) p = Except.ok (featureVector schema p) ∧
    (∀ col ∈ schema, ∀ lvl, col = c ++ "_" ++ lvl →
      List.lookup col (featureVector schema p) = some (Val.num 0)) := by
  refine ⟨rfl, fun col hcol lvl hname => ?_⟩
  unfold featureVector
  rw [lookup_reindex _ _ _ hcol, hname, indicator_not_in_encoded p c hc lvl]
  rfl

/-- The scenario input with an emi_scenario level never seen at training
time. -/
def cryptoProfile : RawProfile :=
  { scenarioProfile with emi_scenario := "Crypto EMI" }

theorem unseen_category_zero_fill_witness :
    preprocessInput (some ["emi_scenario_Salary"]) cryptoProfile =
      Except.ok (featureVector ["emi_scenario_Salary"] cryptoProfile) ∧
    List.lookup "emi_scenario_Salary"
      (featureVector ["emi_scenario_Salary"] cryptoProfile) =
      some (Val.num 0) := by
  have h := unseen_category_zero_fill cryptoProfile ["emi_scenario_Salary"]
    "emi_scenario" (by decide)
  exact ⟨h.1, h.2 "emi_scenario_Salary" (by simp) "Salary" rfl⟩

/-- Claim C9: when the schema artifact cannot be loaded the pipeline fails
with ArtifactMissing and yields no feature vector; whenever the artifact
loads, the pipeline returns a feature vector and raises no fault — the
artifact load is the only hard failure. -/
theorem artifact_missing_fatal (p : RawProfile) :
    preprocessInput none p = Except.error "ArtifactMissing" ∧
    ∀ schema, preprocessInput (some schema) p =
      Except.ok (featureVector schema p) :=
  ⟨rfl, fun _ => rfl⟩

/-- Claim C10: the pipeline is deterministic — identical input profile and
identical schema artifact content give the identical feature vector. -/
theorem preprocess_deterministic (s₁ s₂ : Option (List String))
    (p₁ p₂ : RawProfile) (hs : s₁ = s₂) (hp : p₁ = p₂) :
    preprocessInput s₁ p₁ = preprocessInput s₂ p₂ := by
  rw [hs, hp]

theorem preprocess_deterministic_witness :
    preprocessInput (some ["monthly_salary"]) scenarioProfile =
      preprocessInput (some ["monthly_salary"]) scenarioProfile :=
  preprocess_deterministic (some ["monthly_salary"])
    (some ["monthly_salary"]) scenarioProfile scenarioProfile rfl rfl
